import Mathlib

/-!
Verification of the UFCStats scraper's extraction pipeline.

This file gives a shallow embedding, in Lean 4, of the pure extraction
logic of the scraper (src/scraper/models/*.py and src/scraper/fetch.py):
the "X of Y" counter parsing, height/reach/date parsing, round-statistics
assembly, round-to-fighter identity matching, the fighter cache, the
parallel-fetch result map, the event-listing walk with a date cutoff, and
the weight-class keyword table.  HTML documents are represented by the
texts the Python code extracts from them (the argument of each regex /
string helper), so every string-level algorithm is reproduced exactly.
-/

namespace UFCScraper

/-- Python `\s` on ASCII text: space, tab, newline, carriage return,
vertical tab, form feed. -/
def pyWhitespace (c : Char) : Bool :=
  c = ' ' || c = '\t' || c = '\n' || c = '\r' || c = Char.ofNat 11 || c = Char.ofNat 12

/-- Numeric value of a list of decimal digit characters (most significant first). -/
def digitsToNat (ds : List Char) : Nat :=
  ds.foldl (fun n c => n * 10 + (c.toNat - 48)) 0

/-- Greedy `\d+` at the head of the character list: the maximal nonempty digit
prefix together with the rest, or `none` if the list does not start with a digit. -/
def takeDigits (cs : List Char) : Option (Nat × List Char) :=
  let ds := cs.takeWhile Char.isDigit
  if ds.isEmpty then none else some (digitsToNat ds, cs.dropWhile Char.isDigit)

/-- `\s*`: drop leading whitespace. -/
def skipWs (cs : List Char) : List Char :=
  cs.dropWhile pyWhitespace

/-- The apostrophe character `'` (codepoint 39). -/
def apoChar : Char := Char.ofNat 39

/-- `RoundStats.split_x_of_y`: `re.match(r'(\d+)\s*of\s*(\d+)', s)`; on a match
returns the two integers, otherwise the `(-1, -1)` sentinel. -/
def split_x_of_y (stat_string : String) : Int × Int :=
  match takeDigits stat_string.data with
  | none => (-1, -1)
  | some (x, rest) =>
    match skipWs rest with
    | 'o' :: 'f' :: rest2 =>
      match takeDigits (skipWs rest2) with
      | some (y, _) => ((x : Int), (y : Int))
      | none => (-1, -1)
    | _ => (-1, -1)

/-- `RoundStats.to_int`: `int(text) if text.isdigit() else None`. -/
def to_int (text : String) : Option Int :=
  if !text.data.isEmpty && text.data.all Char.isDigit then
    some (digitsToNat text.data : Int)
  else none

/-- `RoundStats.parse_control_time_to_seconds`: `re.match(r"(\d+):(\d+)", s)`
giving `minutes * 60 + seconds`, else `None`. -/
def parse_control_time_to_seconds (time_str : String) : Option Int :=
  match takeDigits time_str.data with
  | none => none
  | some (minutes, rest) =>
    match rest with
    | ':' :: rest2 =>
      match takeDigits rest2 with
      | some (seconds, _) => some ((minutes * 60 + seconds : Nat) : Int)
      | none => none
    | _ => none

/-- `Fighter.parse_height`: `None`/empty gives `None`; otherwise
`re.match(r"(\d+)'[\s]*(\d+)", s)` gives `feet * 12 + inches`, else `None`. -/
def parse_height (height_string : Option String) : Option Nat :=
  match height_string with
  | none => none
  | some s =>
    if s.data.isEmpty then none
    else
      match takeDigits s.data with
      | none => none
      | some (feet, rest) =>
        match rest with
        | [] => none
        | c :: rest2 =>
          if c = apoChar then
            match takeDigits (skipWs rest2) with
            | some (inches, _) => some (feet * 12 + inches)
            | none => none
          else none

/-- First `\d+` anywhere in the list (`re.search`). -/
def firstNat (cs : List Char) : Option Nat :=
  match cs with
  | [] => none
  | c :: rest =>
    if c.isDigit then
      some (digitsToNat ((c :: rest).takeWhile Char.isDigit))
    else firstNat rest

/-- `Fighter.parse_reach`: first integer substring, `None` when absent or the
input is `None`/empty. -/
def parse_reach (reach_string : Option String) : Option Nat :=
  match reach_string with
  | none => none
  | some s => if s.data.isEmpty then none else firstNat s.data

/-- A calendar date, compared field-lexicographically like `datetime.date`. -/
structure Date where
  year : Nat
  month : Nat
  day : Nat
deriving DecidableEq, Repr

/-- `datetime.date` ordering: lexicographic on (year, month, day). -/
def dateLE (a b : Date) : Bool :=
  a.year < b.year ||
    (a.year = b.year &&
      (a.month < b.month || (a.month = b.month && a.day ≤ b.day)))

/-- Python ASCII lowercasing of one character. -/
def pyLowerChar (c : Char) : Char :=
  if 65 ≤ c.toNat && c.toNat ≤ 90 then Char.ofNat (c.toNat + 32) else c

/-- Python `str.lower()` on ASCII text. -/
def pyLower (s : String) : String :=
  ⟨s.data.map pyLowerChar⟩

/-- Does `hay` start with `needle`? -/
def charsStartWith : List Char → List Char → Bool
  | _, [] => true
  | [], _ :: _ => false
  | h :: hs, n :: ns => h = n && charsStartWith hs ns

/-- Does `hay` contain `needle` as a contiguous run (Python's `in` on strings)? -/
def charsContain : List Char → List Char → Bool
  | [], needle => needle.isEmpty
  | h :: hs, needle => charsStartWith (h :: hs) needle || charsContain hs needle

/-- Full month names, as matched (case-insensitively) by `strptime`'s `%B`. -/
def monthsFull : List String :=
  ["january", "february", "march", "april", "may", "june",
   "july", "august", "september", "october", "november", "december"]

/-- Abbreviated month names, as matched (case-insensitively) by `strptime`'s `%b`. -/
def monthsAbbrev : List String :=
  ["jan", "feb", "mar", "apr", "may", "jun",
   "jul", "aug", "sep", "oct", "nov", "dec"]

/-- Match one of `names` (case-insensitively) at the head of `cs`; returns the
1-based month number and the rest. -/
def parseMonthName (names : List String) (cs : List Char) : Option (Nat × List Char) :=
  let rec go (i : Nat) : List String → Option (Nat × List Char)
    | [] => none
    | n :: ns =>
      if charsStartWith (cs.map pyLowerChar) n.data then
        some (i + 1, cs.drop n.length)
      else go (i + 1) ns
  go 0 names

/-- Days in a month under the Gregorian rules used by `datetime.date` validation. -/
def daysInMonth (year month : Nat) : Nat :=
  if month = 2 then
    if year % 4 = 0 && (year % 100 ≠ 0 || year % 400 = 0) then 29 else 28
  else if month = 4 || month = 6 || month = 9 || month = 11 then 30
  else 31

/-- `datetime.strptime(s, '<month> %d, %Y').date()` for a given month-name
list (`monthsFull` for `%B`, `monthsAbbrev` for `%b`): month name, whitespace,
1-2 digit day, comma, whitespace, 4-digit year, end of input; the day must be
valid for the month or `ValueError` (modelled as `none`) results. -/
def parseDateWith (names : List String) (s : String) : Option Date :=
  match parseMonthName names s.data with
  | none => none
  | some (month, rest) =>
    match rest with
    | c :: rest1 =>
      if pyWhitespace c then
        let rest2 := skipWs rest1
        let ds := rest2.takeWhile Char.isDigit
        if ds.isEmpty || 2 < ds.length then none
        else
          let day := digitsToNat ds
          match rest2.dropWhile Char.isDigit with
          | ',' :: rest3 =>
            match rest3 with
            | c2 :: rest4 =>
              if pyWhitespace c2 then
                let rest5 := skipWs rest4
                let ys := rest5.takeWhile Char.isDigit
                if ys.length = 4 && (rest5.dropWhile Char.isDigit).isEmpty &&
                    1 ≤ day && day ≤ daysInMonth (digitsToNat ys) month then
                  some ⟨digitsToNat ys, month, day⟩
                else none
              else none
            | [] => none
          | _ => none
      else none
    | [] => none

/-- `Fighter.parse_dob`: `strptime('%b %d, %Y')` on the (already stripped)
detail value; `None`/empty input and parse failures give `None`. -/
def parse_dob (dob_string : Option String) : Option Date :=
  match dob_string with
  | none => none
  | some s => if s.data.isEmpty then none else parseDateWith monthsAbbrev s

/-! ### Python dictionaries and the parallel fetch coordinator -/

/-- Reading key `k` from a dict built by successive assignments: the value of
the last entry whose key is `k` (`d.get(k)`, `None` when absent). -/
def pyGet {α : Type} : List (String × α) → String → Option α
  | [], _ => none
  | kv :: rest, k =>
    match pyGet rest k with
    | some v => some v
    | none => if kv.1 = k then some kv.2 else none

/-- Dict assignment `d[k] = v`: overwrite in place when the key exists,
append otherwise (insertion-ordered, like a Python dict). -/
def dictInsert {α : Type} (kvs : List (String × α)) (k : String) (v : α) :
    List (String × α) :=
  if kvs.any (fun kv => kv.1 = k) then
    kvs.map (fun kv => if kv.1 = k then (k, v) else kv)
  else kvs ++ [(k, v)]

/-- The keys of a dict. -/
def dictKeys {α : Type} (kvs : List (String × α)) : List String :=
  kvs.map Prod.fst

/-- `fetch_parallel`: one `get_page_content` task per list element, results
collected into a dict keyed by URL; a failed fetch stores `None` rather than
omitting the key.  `oracle` models `get_page_content` (deterministic within a
run); dict semantics make repeated URLs collapse to a single key. -/
def fetch_parallel {α : Type} (urls : List String) (oracle : String → Option α) :
    List (String × Option α) :=
  urls.foldl (fun results url => dictInsert results url (oracle url)) []

/-! ### RoundStats (src/scraper/models/roundstats.py) -/

/-- The texts `get_text` extracts, for one fighter position, from the cells of
a totals `<tr>` that `parse_total_stats` reads (indices 1,2,4,5,7,8,9);
a missing/malformed `<p>` yields `""` (`get_text`'s except branch). -/
structure TotalsTexts where
  kdTxt : String
  sigTxt : String
  totalTxt : String
  tdTxt : String
  subTxt : String
  revTxt : String
  ctrlTxt : String
deriving DecidableEq, Repr

/-- The texts `get_text` extracts, for one fighter position, from the cells of
a significant-strikes `<tr>` that `parse_sig_strikes_stats` reads (indices 3-8). -/
structure SigTexts where
  headTxt : String
  bodyTxt : String
  legTxt : String
  distanceTxt : String
  clinchTxt : String
  groundTxt : String
deriving DecidableEq, Repr

/-- Per-fighter statistics for one round (the `RoundStats` dataclass fields). -/
structure RoundStats where
  fighter_link : Option String := none
  knockdowns : Option Int := none
  non_sig_strikes_landed : Option Int := none
  non_sig_strikes_attempted : Option Int := none
  takedowns_landed : Option Int := none
  takedowns_attempted : Option Int := none
  submission_attempts : Option Int := none
  reversals : Option Int := none
  control_time_seconds : Option Int := none
  head_strikes_landed : Option Int := none
  head_strikes_attempted : Option Int := none
  body_strikes_landed : Option Int := none
  body_strikes_attempted : Option Int := none
  leg_strikes_landed : Option Int := none
  leg_strikes_attempted : Option Int := none
  distance_strikes_landed : Option Int := none
  distance_strikes_attempted : Option Int := none
  clinch_strikes_landed : Option Int := none
  clinch_strikes_attempted : Option Int := none
  ground_strikes_landed : Option Int := none
  ground_strikes_attempted : Option Int := none
deriving DecidableEq, Repr

/-- `RoundStats.parse_total_stats`, acting on the texts extracted for this
fighter's position.  `link` is the stripped `href` of the `<a>` inside the
position's `<p>` of cell 0 (`None` when the anchor is missing).  Note that the
takedown pair is assigned the raw `split_x_of_y` result, so a malformed cell
stores the literal `-1` sentinel; only the derived non-significant pair is
guarded by the `>= 0` check. -/
def parse_total_stats (link : Option String) (t : TotalsTexts) (rs : RoundStats) :
    RoundStats :=
  let rs := { rs with fighter_link := link }
  let rs := { rs with knockdowns := to_int t.kdTxt }
  let sigPair := split_x_of_y t.sigTxt
  let totalPair := split_x_of_y t.totalTxt
  let rs :=
    if 0 ≤ sigPair.1 && 0 ≤ totalPair.1 then
      { rs with
        non_sig_strikes_landed := some (totalPair.1 - sigPair.1),
        non_sig_strikes_attempted := some (totalPair.2 - sigPair.2) }
    else rs
  let tdPair := split_x_of_y t.tdTxt
  let rs := { rs with
    takedowns_landed := some tdPair.1,
    takedowns_attempted := some tdPair.2 }
  let rs := { rs with submission_attempts := to_int t.subTxt }
  let rs := { rs with reversals := to_int t.revTxt }
  { rs with control_time_seconds := parse_control_time_to_seconds t.ctrlTxt }

/-- `RoundStats.parse_sig_strikes_stats`: each pair is the raw
`split_x_of_y` result of its cell text. -/
def parse_sig_strikes_stats (sg : SigTexts) (rs : RoundStats) : RoundStats :=
  let headPair := split_x_of_y sg.headTxt
  let bodyPair := split_x_of_y sg.bodyTxt
  let legPair := split_x_of_y sg.legTxt
  let distancePair := split_x_of_y sg.distanceTxt
  let clinchPair := split_x_of_y sg.clinchTxt
  let groundPair := split_x_of_y sg.groundTxt
  { rs with
    head_strikes_landed := some headPair.1
    head_strikes_attempted := some headPair.2
    body_strikes_landed := some bodyPair.1
    body_strikes_attempted := some bodyPair.2
    leg_strikes_landed := some legPair.1
    leg_strikes_attempted := some legPair.2
    distance_strikes_landed := some distancePair.1
    distance_strikes_attempted := some distancePair.2
    clinch_strikes_landed := some clinchPair.1
    clinch_strikes_attempted := some clinchPair.2
    ground_strikes_landed := some groundPair.1
    ground_strikes_attempted := some groundPair.2 }

/-- `RoundStats.create_roundstats`: parse the totals row if present, then the
significant-strikes row if present; absent rows leave the defaults (`None`). -/
def create_roundstats (link : Option String) (totals : Option TotalsTexts)
    (sigs : Option SigTexts) : RoundStats :=
  let rs : RoundStats := {}
  let rs := match totals with
    | some t => parse_total_stats link t rs
    | none => rs
  match sigs with
  | some sg => parse_sig_strikes_stats sg rs
  | none => rs

/-! ### Fighter and the shared fighter cache (src/scraper/models/fighter.py) -/

/-- The data the fighter extractor reads from a fighter profile page:
the text of the `b-content__title-highlight` span (`None` when the span is
absent) and the label/value pairs collected from the `ul.b-list__box-list`
items (labels already `.rstrip(':').upper()`-normalised, values stripped). -/
structure FighterPage where
  nameSpan : Option String
  details : List (String × String)
deriving DecidableEq, Repr

/-- The `Fighter` dataclass fields; unassigned attributes fall back to the
dataclass defaults (`None`). -/
structure Fighter where
  link : String
  name : Option String := none
  height_in : Option Nat := none
  reach_in : Option Nat := none
  dob : Option Date := none
deriving DecidableEq, Repr

/-- `Fighter.parse_fighter_name`: the stripped span text when the span exists. -/
def parse_fighter_name (p : FighterPage) : Option String :=
  p.nameSpan

/-- `Fighter.create_fighter`: refetch via `oracle` when no soup was passed in;
a missing page leaves every attribute at its default, otherwise the name,
height, reach and date of birth are parsed from the page. -/
def create_fighter (oracle : String → Option FighterPage) (link : String)
    (fighter_page_soup : Option FighterPage) : Fighter :=
  let soup := match fighter_page_soup with
    | some p => some p
    | none => oracle link
  match soup with
  | none => { link := link }
  | some p =>
    { link := link
      name := parse_fighter_name p
      height_in := parse_height (pyGet p.details "HEIGHT")
      reach_in := parse_reach (pyGet p.details "REACH")
      dob := parse_dob (pyGet p.details "DOB") }

/-- `Fighter.__init__`: on a cache hit, copy the cached fields; on a miss,
build the fighter and then store it in `FIGHTER_CACHE` — the store is executed
unconditionally after `create_fighter` returns, even when the parsed name is
`None` (the early `return` inside `create_fighter` does not reach the caller's
cache insertion). -/
def fighterInit (oracle : String → Option FighterPage)
    (cache : List (String × Fighter)) (link : String)
    (fighter_soup : Option FighterPage) : Fighter × List (String × Fighter) :=
  match pyGet cache link with
  | some cached => ({ cached with link := link }, cache)
  | none =>
    let f := create_fighter oracle link fighter_soup
    (f, dictInsert cache link f)

/-! ### Round (src/scraper/models/round.py) -/

/-- A totals `<tr>` as seen from both fighter positions: the stripped anchor
`href` of each position's `<p>` in cell 0 (`None` when there is no anchor),
and the cell texts each position's `get_text` extracts. -/
structure TotalsRowSrc where
  linkAt0 : Option String
  linkAt1 : Option String
  textsAt0 : TotalsTexts
  textsAt1 : TotalsTexts
deriving DecidableEq, Repr

/-- A significant-strikes `<tr>` as seen from both fighter positions. -/
structure SigRowSrc where
  sigAt0 : SigTexts
  sigAt1 : SigTexts
deriving DecidableEq, Repr

/-- `RoundStats(totals_tr, sig_strikes_tr, position)`: project the row data at
the given table position (`false` = position 0, `true` = position 1) and run
`create_roundstats`; a `None` row contributes nothing. -/
def mkRoundStats (posIsSecond : Bool) (totals : Option TotalsRowSrc)
    (sigs : Option SigRowSrc) : RoundStats :=
  create_roundstats
    (match totals with
      | some tr => if posIsSecond then tr.linkAt1 else tr.linkAt0
      | none => none)
    (totals.map fun tr => if posIsSecond then tr.textsAt1 else tr.textsAt0)
    (sigs.map fun sr => if posIsSecond then sr.sigAt1 else sr.sigAt0)

/-- One round of a fight, with the statistics assigned per side. -/
structure Round where
  round_number : Nat
  fighter_a_roundstats : RoundStats
  fighter_b_roundstats : RoundStats
deriving DecidableEq, Repr

/-- Lookup in `stats_by_link = {rs.fighter_link: rs for rs in round_stats}`:
the comprehension inserts position 0 then position 1, so on a key collision
the position-1 entry wins; membership coincides with `isSome`. -/
def statsByLinkGet (rs0 rs1 : RoundStats) (k : Option String) : Option RoundStats :=
  if rs1.fighter_link = k then some rs1
  else if rs0.fighter_link = k then some rs0
  else none

/-- `Round.create_round` for round `round_number`, given the two `<tr>`s found
after the matching `Round N` headers (`none` when a header/row is missing) and
the expected fighter links `(link_a, link_b)`.  Construction succeeds exactly
when both expected links occur among the rows' identity tokens, assigning each
side the row whose token matches; otherwise it raises `ValueError`. -/
def create_round (round_number : Nat) (totals : Option TotalsRowSrc)
    (sigs : Option SigRowSrc) (fighter_links : String × String) :
    Except String Round :=
  let rs0 := mkRoundStats false totals sigs
  let rs1 := mkRoundStats true totals sigs
  match statsByLinkGet rs0 rs1 (some fighter_links.1),
        statsByLinkGet rs0 rs1 (some fighter_links.2) with
  | some a, some b => .ok ⟨round_number, a, b⟩
  | _, _ => .error "Could not match Round stats to fighter links."

/-! ### Fight (src/scraper/models/fight.py) -/

/-- The data the fight extractor reads from a fight-details page: the stripped
hrefs of the `b-fight-details__person-link` anchors, the first person-status
text, the `b-fight-details__fight-title` text, the details dict built by
`parse_fight_details`, and for each round number `n` the pair of `<tr>`s found
after the `Round n` headers (index `n - 1`; out of range means no header). -/
structure FightPage where
  fighterAnchors : List String
  personStatus : Option String
  fightTitleTxt : Option String
  details : List (String × String)
  roundRows : List (Option TotalsRowSrc × Option SigRowSrc)
deriving DecidableEq, Repr

/-- The `Fight` dataclass fields; attributes never assigned keep the defaults
set in `__init__` (`gender = "M"`, `title_fight = False`) or stay unset
(modelled as `none` / `[]`). -/
structure Fight where
  link : String
  gender : String := "M"
  title_fight : Bool := false
  fighter_a : Option Fighter := none
  fighter_b : Option Fighter := none
  winner : Option String := none
  weight_class : Option Nat := none
  method_of_victory : Option String := none
  round_of_victory : Option Int := none
  time_of_victory_sec : Option Int := none
  time_format : Option Int := none
  referee : Option String := none
  rounds : List Round := []
deriving DecidableEq, Repr

/-- Python `int(s)`: optional surrounding whitespace, optional sign, digits. -/
def pyInt (s : String) : Option Int :=
  let t := ((s.data.dropWhile pyWhitespace).reverse.dropWhile pyWhitespace).reverse
  match t with
  | '-' :: ds =>
    if !ds.isEmpty && ds.all Char.isDigit then some (-(digitsToNat ds : Int)) else none
  | '+' :: ds =>
    if !ds.isEmpty && ds.all Char.isDigit then some ((digitsToNat ds : Nat) : Int) else none
  | ds =>
    if !ds.isEmpty && ds.all Char.isDigit then some ((digitsToNat ds : Nat) : Int) else none

/-- `Fight.parse_round_of_victory`: `int(value)`, with `TypeError`/`ValueError`
(including a `None` value) giving `None`. -/
def parse_round_of_victory (value : Option String) : Option Int :=
  value.bind pyInt

/-- `Fight.parse_mm_ss`: falsy value gives `None`; otherwise the same
`(\d+):(\d+)` prefix match as the control-time parser. -/
def parse_mm_ss (value : Option String) : Option Int :=
  match value with
  | none => none
  | some s => if s.data.isEmpty then none else parse_control_time_to_seconds s

/-- `Fight.parse_time_format`: falsy value gives `None`; otherwise the leading
`\d+` of the time-format label. -/
def parse_time_format (value : Option String) : Option Int :=
  match value with
  | none => none
  | some s =>
    if s.data.isEmpty then none
    else (takeDigits s.data).map (fun p => ((p.1 : Nat) : Int))

/-- The result-icon table of `Fight.parse_winner`. -/
def resultTable : List (String × String) :=
  [("W", "A"), ("L", "B"), ("D", "Draw"), ("NC", "NC")]

/-- `Fight.parse_winner`: `result_mapping.get(result_text)`; a missing status
icon or an unrecognised marker leaves the winner `None`. -/
def parse_winner (result_text : Option String) : Option String :=
  result_text.bind (pyGet resultTable)

/-- The ordered keyword table of `Fight.map_weight_class` (more specific
patterns first). -/
def weightClassTable : List (String × Nat) :=
  [("catch", 0), ("light heavy", 205), ("straw", 115), ("fly", 125),
   ("bantam", 135), ("feather", 145), ("light", 155), ("welter", 170),
   ("middle", 185), ("heavy", 265)]

/-- `Fight.map_weight_class`: lowercase the label, then take the limit of the
first table keyword contained in it. -/
def map_weight_class (weight_class_tag : String) : Option Nat :=
  let t := pyLower weight_class_tag
  weightClassTable.findSome? fun kv =>
    if charsContain t.data kv.1.data then some kv.2 else none

/-- `Fight.is_womens_fight`: `'women' in tag.lower()`. -/
def is_womens_fight (weight_class_tag : String) : Bool :=
  charsContain (pyLower weight_class_tag).data "women".data

/-- `Fight.is_title_fight`: `'title' in tag.lower()`. -/
def is_title_fight (weight_class_tag : String) : Bool :=
  charsContain (pyLower weight_class_tag).data "title".data

/-- `Fight.parse_weight_class` as a function of the fight-title text: the
weight class, the gender (`"M"` unless the label mentions women), and the
title-fight flag. -/
def parse_weight_class_fields (txt : Option String) : Option Nat × String × Bool :=
  match txt with
  | none => (none, "M", false)
  | some s =>
    (map_weight_class s,
     if is_womens_fight s then "F" else "M",
     is_title_fight s)

/-- `Fight.parse_fighters`: raise `ValueError` unless exactly two person-link
anchors exist; otherwise prefetch both fighter pages in parallel and build the
two fighters through the shared cache (threaded explicitly). -/
def parse_fighters (fighterOracle : String → Option FighterPage)
    (cache : List (String × Fighter)) (page : FightPage) :
    Except String ((Fighter × Fighter) × List (String × Fighter)) :=
  match page.fighterAnchors with
  | [l0, l1] =>
    let fighter_soups := fetch_parallel [l0, l1] fighterOracle
    let (fa, cache1) := fighterInit fighterOracle cache l0 ((pyGet fighter_soups l0).getD none)
    let (fb, cache2) := fighterInit fighterOracle cache1 l1 ((pyGet fighter_soups l1).getD none)
    .ok ((fa, fb), cache2)
  | _ => .error "[Fight] Expected two fighter links, found different count."

/-- `Fight.create_rounds`: `range(1, num_rounds + 1)` — a `None` round count
raises `TypeError`; each iteration constructs `Round(n, soup, fighter_links)`
and a `ValueError` from any round propagates. -/
def create_rounds (num_rounds : Option Int) (page : FightPage)
    (fighter_links : String × String) : Except String (List Round) :=
  match num_rounds with
  | none => .error "TypeError: unsupported operand type for +: NoneType and int"
  | some n =>
    (List.range n.toNat).mapM fun i =>
      let rows := page.roundRows.getD i (none, none)
      create_round (i + 1) rows.1 rows.2 fighter_links

/-- `Fight.__init__` / `Fight.create_fight`: resolve the page (refetching when
no pre-fetched soup is given — a missing page returns the stub unmodified),
parse the fighters (exceptions propagate to the caller), then the winner,
weight class, details and rounds.  The textual `fighter_a is None` check in the
source can never fire because `Fighter(...)` always yields an instance; the
model reflects this by assigning `some fa` / `some fb` directly. -/
def create_fight (fighterOracle : String → Option FighterPage)
    (fightOracle : String → Option FightPage)
    (cache : List (String × Fighter)) (link : String)
    (pre_fetched : Option FightPage) :
    Except String (Fight × List (String × Fighter)) :=
  let soup := match pre_fetched with
    | some p => some p
    | none => fightOracle link
  match soup with
  | none => .ok ({ link := link }, cache)
  | some page =>
    match parse_fighters fighterOracle cache page with
    | .error e => .error e
    | .ok ((fa, fb), cache1) =>
      let winner := parse_winner page.personStatus
      let wcf := parse_weight_class_fields page.fightTitleTxt
      let rov := parse_round_of_victory (pyGet page.details "ROUND")
      match create_rounds rov page (fa.link, fb.link) with
      | .error e => .error e
      | .ok rounds =>
        .ok ({ link := link
               gender := wcf.2.1
               title_fight := wcf.2.2
               fighter_a := some fa
               fighter_b := some fb
               winner := winner
               weight_class := wcf.1
               method_of_victory := pyGet page.details "METHOD"
               round_of_victory := rov
               time_of_victory_sec := parse_mm_ss (pyGet page.details "TIME")
               time_format := parse_time_format (pyGet page.details "TIME FORMAT")
               referee := pyGet page.details "REFEREE"
               rounds := rounds }, cache1)

/-- The loop body of `Event.create_fights`: walk the fight links in order; a
link whose fetch failed is skipped, a `Fight` whose construction raised is
caught and skipped, and successful fights are appended in order. -/
def createFightsGo (fighterOracle : String → Option FighterPage)
    (fightOracle : String → Option FightPage)
    (fight_soups : List (String × Option FightPage)) :
    List String → List (String × Fighter) → List Fight × List (String × Fighter)
  | [], cache => ([], cache)
  | link :: rest, cache =>
    match (pyGet fight_soups link).getD none with
    | none => createFightsGo fighterOracle fightOracle fight_soups rest cache
    | some s =>
      match create_fight fighterOracle fightOracle cache link (some s) with
      | .error _ => createFightsGo fighterOracle fightOracle fight_soups rest cache
      | .ok (f, cache1) =>
        let (fs, cache2) := createFightsGo fighterOracle fightOracle fight_soups rest cache1
        (f :: fs, cache2)

/-- `Event.create_fights` over an already-extracted list of fight links:
parallel-fetch every fight page, then construct the fights. -/
def create_fights (fighterOracle : String → Option FighterPage)
    (fightOracle : String → Option FightPage)
    (fight_links : List String) (cache : List (String × Fighter)) :
    List Fight × List (String × Fighter) :=
  createFightsGo fighterOracle fightOracle
    (fetch_parallel fight_links fightOracle) fight_links cache

/-! ### Events listing (src/scraper/events_manager.py, src/scraper/models/event.py) -/

/-- The data the listing extractor reads from one completed-event `<tr>`:
the first anchor's stripped `href` and text, the first `<span>`'s stripped
text, and the second `<td>`'s text — each `None` when the element is absent
(the helpers catch the resulting `AttributeError`/`KeyError`/`IndexError`). -/
structure EventRow where
  linkHref : Option String
  linkText : Option String
  spanText : Option String
  locText : Option String
deriving DecidableEq, Repr

/-- `Events.parse_event_date`: `strptime('%B %d, %Y')` on the stripped span
text; a missing span or a `ValueError` gives `None`. -/
def parse_event_date (row : EventRow) : Option Date :=
  row.spanText.bind (parseDateWith monthsFull)

/-- `Events.parse_event_link`. -/
def parse_event_link (row : EventRow) : Option String :=
  row.linkHref

/-- `Events.parse_event_name`. -/
def parse_event_name (row : EventRow) : Option String :=
  row.linkText

/-- `Events.parse_event_location`. -/
def parse_event_location (row : EventRow) : Option String :=
  row.locText

/-- The `Event` dataclass stub created from a listing row (fights are appended
later by `create_fights`). -/
structure Event where
  link : Option String
  name : Option String
  date : Option Date
  location : Option String
  fights : List Fight := []
deriving DecidableEq, Repr

/-- `Events.create_event`. -/
def create_event (row : EventRow) : Event :=
  { link := parse_event_link row
    name := parse_event_name row
    date := parse_event_date row
    location := parse_event_location row }

/-- The listing page as seen by `Events.create_events`: whether the events
table, its body and the `b-statistics__table-row_type_first` future-event
marker were found, and the `b-statistics__table-row` siblings after the
marker, in document order. -/
structure ListingPage where
  tableFound : Bool
  tbodyFound : Bool
  futureMarkerFound : Bool
  rowsAfterMarker : List EventRow
deriving DecidableEq, Repr

/-- The `break` condition of the `Events.create_events` loop:
`start_date and event_date and event_date <= start_date` (a `None` cutoff or a
row whose date fails to parse never stops the walk). -/
def shouldStop (start_date : Option Date) (row : EventRow) : Bool :=
  match start_date, parse_event_date row with
  | some s, some d => dateLE d s
  | _, _ => false

/-- The row loop of `Events.create_events`: append an `Event` per row, but
`break` at the first row satisfying the cutoff condition. -/
def walkEventRows (start_date : Option Date) : List EventRow → List Event
  | [] => []
  | row :: rest =>
    if shouldStop start_date row then []
    else create_event row :: walkEventRows start_date rest

/-- `Events.create_events`: a failed fetch, missing table, missing body or
missing future-event marker yields no events; otherwise the rows after the
marker are walked with the cutoff rule. -/
def create_events (start_date : Option Date) (page : Option ListingPage) :
    List Event :=
  match page with
  | none => []
  | some p =>
    if p.tableFound && p.tbodyFound && p.futureMarkerFound then
      walkEventRows start_date p.rowsAfterMarker
    else []

/-! ### Specification predicates and concrete fixtures used by the theorems -/

/-- An apostrophe as a string (kept out of string literals for clarity). -/
def apoStr : String := String.singleton apoChar

/-- A fighter profile page whose name span is missing but whose detail list
parses (height 5 ft 11 in, reach 70 in). -/
def namelessFighterPage : FighterPage :=
  { nameSpan := none
    details := [("HEIGHT", "5" ++ apoStr ++ " 11\""), ("REACH", "70\"")] }

/-- A totals row whose takedown cell reads `"---"` (the site's marker for an
unavailable statistic, which `split_x_of_y` cannot parse). -/
def malformedTotals : TotalsTexts :=
  ⟨"1", "10 of 20", "15 of 30", "---", "0", "0", "1:05"⟩

/-- A significant-strikes row whose cells are all `"---"`. -/
def malformedSig : SigTexts :=
  ⟨"---", "---", "---", "---", "---", "---"⟩

/-- A listing row dated from the given span text. -/
def exListingRow (d : String) : EventRow :=
  { linkHref := some "http://ufcstats.com/event-details/x"
    linkText := some "UFC Event"
    spanText := some d
    locText := some "Las Vegas, Nevada, USA" }

/-- Scenario rows dated D3 > D2 > D1. -/
def exRowD3 : EventRow := exListingRow "August 17, 2024"

/-- Scenario row dated D2. -/
def exRowD2 : EventRow := exListingRow "July 20, 2024"

/-- Scenario row dated D1. -/
def exRowD1 : EventRow := exListingRow "June 15, 2024"

/-- A listing page with the future marker followed by the three dated rows. -/
def exListing : ListingPage :=
  { tableFound := true
    tbodyFound := true
    futureMarkerFound := true
    rowsAfterMarker := [exRowD3, exRowD2, exRowD1] }

/-- The cutoff D2. -/
def exCutoffD2 : Date := ⟨2024, 7, 20⟩

/-- A totals row carrying the identity tokens `"A"` (position 0) and `"B"`
(position 1). -/
def exTotalsRowAB : TotalsRowSrc :=
  { linkAt0 := some "A"
    linkAt1 := some "B"
    textsAt0 := ⟨"0", "1 of 2", "2 of 3", "0 of 0", "0", "0", "0:10"⟩
    textsAt1 := ⟨"1", "3 of 4", "5 of 6", "1 of 1", "0", "0", "0:20"⟩ }

/-- Fighter page fixture for the pipeline witness. -/
def exFighterPageA : FighterPage :=
  { nameSpan := some "Alpha Fighter"
    details := [("HEIGHT", "5" ++ apoStr ++ " 11\""), ("REACH", "70\""),
                ("DOB", "Jul 15, 1987")] }

/-- Fighter page fixture for the pipeline witness. -/
def exFighterPageB : FighterPage :=
  { nameSpan := some "Beta Fighter"
    details := [("HEIGHT", "6" ++ apoStr ++ " 1\""), ("REACH", "76\"")] }

/-- Oracle serving the two fighter profile pages. -/
def exFighterOracle : String → Option FighterPage :=
  fun u => if u = "fa" then some exFighterPageA
    else if u = "fb" then some exFighterPageB
    else none

/-- A complete fight page fixture (first-round finish; round statistics
carrying the matching identity tokens). -/
def exFightPage : FightPage :=
  { fighterAnchors := ["fa", "fb"]
    personStatus := some "W"
    fightTitleTxt := some "Lightweight Bout"
    details := [("METHOD", "KO/TKO"), ("ROUND", "1"), ("TIME", "4:35"),
                ("TIME FORMAT", "3 Rnd (5-5-5)"), ("REFEREE", "Herb Dean")]
    roundRows := [(some { linkAt0 := some "fa", linkAt1 := some "fb"
                          textsAt0 := ⟨"0", "1 of 2", "2 of 3", "0 of 0", "0", "0", "0:10"⟩
                          textsAt1 := ⟨"1", "3 of 4", "5 of 6", "1 of 1", "0", "0", "0:20"⟩ },
                   some { sigAt0 := ⟨"1 of 2", "0 of 0", "0 of 0", "1 of 2", "0 of 0", "0 of 0"⟩
                          sigAt1 := ⟨"2 of 4", "1 of 1", "0 of 1", "3 of 6", "0 of 0", "0 of 0"⟩ })] }

/-- Oracle serving the fight page. -/
def exFightOracle : String → Option FightPage :=
  fun u => if u = "fight1" then some exFightPage else none

/-- A fetch oracle where `"a"` succeeds and every other URL fails. -/
def exFetchOracle : String → Option Nat :=
  fun u => if u = "a" then some 1 else none

/-! ## Theorems -/

/-- Either both components of `split_x_of_y` come from matched digit groups
(hence are non-negative), or the whole result is the `(-1, -1)` sentinel. -/
theorem split_x_of_y_cases (s : String) :
    (∃ x y : Nat, split_x_of_y s = ((x : Int), (y : Int))) ∨
      split_x_of_y s = (-1, -1) := by
  unfold split_x_of_y
  repeat' split
  all_goals first
    | (right; rfl)
    | (left; exact ⟨_, _, rfl⟩)

/-- C10: `split_x_of_y` returns either a pair of two non-negative integers or
exactly `(-1, -1)`, never a mixed-sign pair — so testing only the first
component against `-1` (as the non-significant-strike derivation does) is
equivalent to testing both. -/
theorem split_x_of_y_sentinel_dichotomy (s : String) :
    ((0 ≤ (split_x_of_y s).1 ∧ 0 ≤ (split_x_of_y s).2) ∨
      split_x_of_y s = (-1, -1)) ∧
    (0 ≤ (split_x_of_y s).1 ↔ (0 ≤ (split_x_of_y s).1 ∧ 0 ≤ (split_x_of_y s).2)) := by
  rcases split_x_of_y_cases s with ⟨x, y, h⟩ | h <;> rw [h]
  · exact ⟨Or.inl ⟨Int.natCast_nonneg x, Int.natCast_nonneg y⟩,
      by simp [Int.natCast_nonneg]⟩
  · exact ⟨Or.inr rfl, by decide⟩

/-- C2 counterexample: a totals row whose takedown cell (and a significant-
strikes row whose head cell) read `"---"` leaves the corresponding counters as
the literal `-1`, not as `None`. -/
theorem roundstats_minus_one_counterexample :
    (create_roundstats (some "u") (some malformedTotals) (some malformedSig)).takedowns_landed
        = some (-1) ∧
    (create_roundstats (some "u") (some malformedTotals) (some malformedSig)).takedowns_landed
        ≠ none ∧
    (create_roundstats (some "u") (some malformedTotals) (some malformedSig)).head_strikes_landed
        = some (-1) := by
  refine ⟨rfl, ?_, rfl⟩
  decide

/-- C2 amended: when a statistics row is present, the takedown and
per-target/per-range strike counters are assigned the raw `split_x_of_y`
result of their cell — so an absent or malformed cell leaves them holding the
literal `-1` sentinel; they are `None` exactly when the whole row is missing. -/
theorem roundstats_pair_fields (link : Option String) :
    (∀ (t : TotalsTexts) (sg : Option SigTexts),
      (create_roundstats link (some t) sg).takedowns_landed
          = some (split_x_of_y t.tdTxt).1 ∧
      (create_roundstats link (some t) sg).takedowns_attempted
          = some (split_x_of_y t.tdTxt).2) ∧
    (∀ sg : Option SigTexts,
      (create_roundstats link none sg).takedowns_landed = none ∧
      (create_roundstats link none sg).takedowns_attempted = none) ∧
    (∀ (tt : Option TotalsTexts) (sg : SigTexts),
      (create_roundstats link tt (some sg)).head_strikes_landed
          = some (split_x_of_y sg.headTxt).1 ∧
      (create_roundstats link tt (some sg)).head_strikes_attempted
          = some (split_x_of_y sg.headTxt).2 ∧
      (create_roundstats link tt (some sg)).body_strikes_landed
          = some (split_x_of_y sg.bodyTxt).1 ∧
      (create_roundstats link tt (some sg)).body_strikes_attempted
          = some (split_x_of_y sg.bodyTxt).2 ∧
      (create_roundstats link tt (some sg)).leg_strikes_landed
          = some (split_x_of_y sg.legTxt).1 ∧
      (create_roundstats link tt (some sg)).leg_strikes_attempted
          = some (split_x_of_y sg.legTxt).2 ∧
      (create_roundstats link tt (some sg)).distance_strikes_landed
          = some (split_x_of_y sg.distanceTxt).1 ∧
      (create_roundstats link tt (some sg)).distance_strikes_attempted
          = some (split_x_of_y sg.distanceTxt).2 ∧
      (create_roundstats link tt (some sg)).clinch_strikes_landed
          = some (split_x_of_y sg.clinchTxt).1 ∧
      (create_roundstats link tt (some sg)).clinch_strikes_attempted
          = some (split_x_of_y sg.clinchTxt).2 ∧
      (create_roundstats link tt (some sg)).ground_strikes_landed
          = some (split_x_of_y sg.groundTxt).1 ∧
      (create_roundstats link tt (some sg)).ground_strikes_attempted
          = some (split_x_of_y sg.groundTxt).2) ∧
    (∀ tt : Option TotalsTexts,
      (create_roundstats link tt none).head_strikes_landed = none ∧
      (create_roundstats link tt none).body_strikes_landed = none ∧
      (create_roundstats link tt none).leg_strikes_landed = none ∧
      (create_roundstats link tt none).distance_strikes_landed = none ∧
      (create_roundstats link tt none).clinch_strikes_landed = none ∧
      (create_roundstats link tt none).ground_strikes_landed = none ∧
      (create_roundstats link tt none).head_strikes_attempted = none ∧
      (create_roundstats link tt none).body_strikes_attempted = none ∧
      (create_roundstats link tt none).leg_strikes_attempted = none ∧
      (create_roundstats link tt none).distance_strikes_attempted = none ∧
      (create_roundstats link tt none).clinch_strikes_attempted = none ∧
      (create_roundstats link tt none).ground_strikes_attempted = none) := by
  refine ⟨?_, ?_, ?_, ?_⟩
  · intro t sg
    cases sg <;>
      simp [create_roundstats, parse_total_stats, parse_sig_strikes_stats, apply_ite]
  · intro sg
    cases sg <;>
      simp [create_roundstats, parse_total_stats, parse_sig_strikes_stats, apply_ite]
  · intro tt sg
    cases tt <;>
      simp [create_roundstats, parse_total_stats, parse_sig_strikes_stats, apply_ite]
  · intro tt
    cases tt <;>
      simp [create_roundstats, parse_total_stats, parse_sig_strikes_stats, apply_ite]

/-- C7: the weight-class table is matched in order against the lowercased
label, so any label containing "light heavy" but not "catch" maps to 205
(never 155); in particular "Light Heavyweight Title Bout" maps to 205 and is
flagged as a title fight. -/
theorem weight_class_priority :
    (∀ s : String,
      charsContain (pyLower s).data "catch".data = false →
      charsContain (pyLower s).data "light heavy".data = true →
      map_weight_class s = some 205) ∧
    map_weight_class "Light Heavyweight Title Bout" = some 205 ∧
    is_title_fight "Light Heavyweight Title Bout" = true := by
  refine ⟨?_, by decide, by decide⟩
  intro s h1 h2
  simp [map_weight_class, weightClassTable, List.findSome?, h1, h2]

/-- C7 witness: the priority lemma applied at "Light Heavyweight Title Bout". -/
theorem weight_class_priority_witness :
    map_weight_class "Light Heavyweight Title Bout" = some 205 :=
  weight_class_priority.1 "Light Heavyweight Title Bout" (by decide) (by decide)

/-- C1 (code bug): resolving a fighter page whose name span is missing still
inserts the nameless fighter into the shared cache — `__init__` stores into
`FIGHTER_CACHE` unconditionally after `create_fighter` returns, so the "skip
caching" early return never prevents the insertion its docstring promises. -/
theorem fighter_cache_admits_nameless :
    (fighterInit (fun _ => none) [] "f1" (some namelessFighterPage)).2 =
      [("f1", { link := "f1", name := none, height_in := some 71,
                reach_in := some 70, dob := none })] ∧
    pyGet (fighterInit (fun _ => none) [] "f1" (some namelessFighterPage)).2 "f1"
      ≠ none := by
  refine ⟨rfl, ?_⟩
  decide

/-- C5 counterexample: a duplicated input URL collapses to a single dict key,
so the output map has fewer entries than `len(urls)`. -/
theorem fetch_parallel_duplicates :
    (fetch_parallel ["u", "u"] (fun _ => (none : Option Nat))).length = 1 ∧
    ¬((fetch_parallel ["u", "u"] (fun _ => (none : Option Nat))).length
        = ["u", "u"].length) := by
  decide

/-- C9 counterexample: the height regex is a prefix match, so a string that is
not of the form `<feet>' <inches>"` (arbitrary trailing text) still parses. -/
theorem parse_height_trailing_junk :
    parse_height (some ("6" ++ apoStr ++ " 1junk")) = some 73 ∧
    parse_height (some ("6" ++ apoStr ++ " 1junk")) ≠ none := by
  refine ⟨rfl, ?_⟩
  decide

/-- A successful `split_x_of_y` parse is recognisable from the first component
alone: it is non-negative exactly when the result is not the sentinel. -/
theorem split_x_of_y_fst_nonneg_iff (s : String) :
    0 ≤ (split_x_of_y s).1 ↔ split_x_of_y s ≠ (-1, -1) := by
  rcases split_x_of_y_cases s with ⟨x, y, h⟩ | h <;> rw [h]
  · constructor
    · intro _
      simp only [Ne, Prod.mk.injEq, not_and]
      intro hx
      omega
    · intro _
      exact Int.natCast_nonneg x
  · decide

/-- C8: the non-significant strike counters are derived — equal to
total minus significant, landed and attempted — and are filled in exactly when
both the significant and the total "X of Y" cells parsed (neither is the
sentinel); otherwise, and when the totals row is missing entirely, both stay
`None`. -/
theorem non_sig_strikes_derived (link : Option String) (t : TotalsTexts)
    (sg : Option SigTexts) :
    (split_x_of_y t.sigTxt ≠ (-1, -1) → split_x_of_y t.totalTxt ≠ (-1, -1) →
      (create_roundstats link (some t) sg).non_sig_strikes_landed
          = some ((split_x_of_y t.totalTxt).1 - (split_x_of_y t.sigTxt).1) ∧
      (create_roundstats link (some t) sg).non_sig_strikes_attempted
          = some ((split_x_of_y t.totalTxt).2 - (split_x_of_y t.sigTxt).2)) ∧
    ((split_x_of_y t.sigTxt = (-1, -1) ∨ split_x_of_y t.totalTxt = (-1, -1)) →
      (create_roundstats link (some t) sg).non_sig_strikes_landed = none ∧
      (create_roundstats link (some t) sg).non_sig_strikes_attempted = none) ∧
    ((create_roundstats link none sg).non_sig_strikes_landed = none ∧
      (create_roundstats link none sg).non_sig_strikes_attempted = none) := by
  refine ⟨?_, ?_, ?_⟩
  · intro h1 h2
    have g1 : 0 ≤ (split_x_of_y t.sigTxt).1 := (split_x_of_y_fst_nonneg_iff _).mpr h1
    have g2 : 0 ≤ (split_x_of_y t.totalTxt).1 := (split_x_of_y_fst_nonneg_iff _).mpr h2
    cases sg <;>
      simp [create_roundstats, parse_total_stats, parse_sig_strikes_stats, g1, g2]
  · intro h
    have g : ¬(0 ≤ (split_x_of_y t.sigTxt).1 ∧ 0 ≤ (split_x_of_y t.totalTxt).1) := by
      rcases h with h | h <;>
        [exact fun hc => ((split_x_of_y_fst_nonneg_iff _).mp hc.1) h;
         exact fun hc => ((split_x_of_y_fst_nonneg_iff _).mp hc.2) h]
    rcases Classical.em (0 ≤ (split_x_of_y t.sigTxt).1) with g1 | g1
    · have g2 : ¬0 ≤ (split_x_of_y t.totalTxt).1 := fun g2 => g ⟨g1, g2⟩
      cases sg <;>
        simp [create_roundstats, parse_total_stats, parse_sig_strikes_stats, g1, g2]
    · cases sg <;>
        simp [create_roundstats, parse_total_stats, parse_sig_strikes_stats, g1]
  · cases sg <;>
      simp [create_roundstats, parse_total_stats, parse_sig_strikes_stats]

/-- C8 witness: the derivation lemma applied to a row reading
"10 of 20" significant and "15 of 30" total. -/
theorem non_sig_strikes_derived_witness :
    (create_roundstats (some "w") (some ⟨"0", "10 of 20", "15 of 30", "2 of 3", "0", "0", "1:05"⟩) none).non_sig_strikes_landed
        = some 5 ∧
    (create_roundstats (some "w") (some ⟨"0", "10 of 20", "15 of 30", "2 of 3", "0", "0", "1:05"⟩) none).non_sig_strikes_attempted
        = some 10 := by
  have h := (non_sig_strikes_derived (some "w")
    ⟨"0", "10 of 20", "15 of 30", "2 of 3", "0", "0", "1:05"⟩ none).1
    (by decide) (by decide)
  simpa using h

/-! ### Dictionary lemmas for the parallel fetch map -/

/-- `pyGet` over an append prefers the right-hand (later) entries. -/
theorem pyGet_append_of_some {α : Type} (l1 l2 : List (String × α)) (k : String)
    (v : α) (h : pyGet l2 k = some v) : pyGet (l1 ++ l2) k = some v := by
  induction l1 with
  | nil => simpa using h
  | cons kv rest ih => simp [pyGet, ih]

/-- `pyGet` over an append falls back to the left-hand entries. -/
theorem pyGet_append_of_none {α : Type} (l1 l2 : List (String × α)) (k : String)
    (h : pyGet l2 k = none) : pyGet (l1 ++ l2) k = pyGet l1 k := by
  induction l1 with
  | nil => simpa using h
  | cons kv rest ih => simp [pyGet, ih]

/-- Membership in a dict's key list is existence of an entry with that key. -/
theorem mem_dictKeys {α : Type} (m : List (String × α)) (k : String) :
    k ∈ dictKeys m ↔ ∃ v, (k, v) ∈ m := by
  constructor
  · intro h
    rcases List.mem_map.mp h with ⟨⟨a, b⟩, hab, hfst⟩
    exact ⟨b, by rwa [show a = k from hfst] at hab⟩
  · rintro ⟨v, hv⟩
    exact List.mem_map.mpr ⟨(k, v), hv, rfl⟩

/-- A key reads back as `none` exactly when it is not among the dict's keys. -/
theorem pyGet_eq_none_iff {α : Type} (m : List (String × α)) (k : String) :
    pyGet m k = none ↔ k ∉ dictKeys m := by
  induction m with
  | nil => simp [pyGet, dictKeys]
  | cons kv rest ih =>
    cases h : pyGet rest k with
    | some v =>
      have hmem : k ∈ dictKeys rest := by
        by_contra hc
        have := ih.mpr hc
        simp [h] at this
      constructor
      · intro habs
        simp [pyGet, h] at habs
      · intro hnot
        exact absurd (List.mem_cons_of_mem kv.1 hmem : k ∈ kv.1 :: dictKeys rest) hnot
    | none =>
      have hk : k ∉ dictKeys rest := ih.mp h
      by_cases he : kv.1 = k
      · constructor
        · intro habs
          simp [pyGet, h, he] at habs
        · intro hnot
          refine absurd ?_ hnot
          show k ∈ kv.1 :: dictKeys rest
          rw [he]
          exact List.mem_cons_self k _
      · constructor
        · intro _
          intro hmem
          rcases List.mem_cons.mp (hmem : k ∈ kv.1 :: dictKeys rest) with h1 | h2
          · exact he h1.symm
          · exact hk h2
        · intro _
          simp [pyGet, h, he]

/-- Replacing the value at `k` leaves the key list unchanged. -/
theorem dictKeys_map_replace {α : Type} (m : List (String × α)) (k : String) (v : α) :
    dictKeys (m.map (fun kv => if kv.1 = k then (k, v) else kv)) = dictKeys m := by
  induction m with
  | nil => rfl
  | cons kv rest ih =>
    show ((if kv.1 = k then (k, v) else kv).1) :: dictKeys (rest.map _) = kv.1 :: dictKeys rest
    rw [ih]
    by_cases h : kv.1 = k
    · rw [if_pos h, h]
    · rw [if_neg h]

/-- Keys after a dict assignment: unchanged when the key was present, the key
appended when it was not. -/
theorem dictKeys_dictInsert {α : Type} (m : List (String × α)) (k : String) (v : α) :
    dictKeys (dictInsert m k v)
      = if k ∈ dictKeys m then dictKeys m else dictKeys m ++ [k] := by
  by_cases h : k ∈ dictKeys m
  · have hany : (m.any fun kv => kv.1 = k) = true := by
      rcases (mem_dictKeys m k).mp h with ⟨w, hw⟩
      exact List.any_eq_true.mpr ⟨(k, w), hw, by simp⟩
    unfold dictInsert
    rw [if_pos hany, if_pos h]
    exact dictKeys_map_replace m k v
  · have hany : ¬((m.any fun kv => kv.1 = k) = true) := by
      intro habs
      rcases List.any_eq_true.mp habs with ⟨kv, hkv, hfst⟩
      exact h ((mem_dictKeys m k).mpr ⟨kv.2, by
        have : kv.1 = k := by simpa using hfst
        rwa [← this, Prod.mk.eta]⟩)
    unfold dictInsert
    rw [if_neg hany, if_neg h]
    simp [dictKeys]

/-- Dict assignment keeps the keys duplicate-free. -/
theorem nodup_dictKeys_dictInsert {α : Type} (m : List (String × α)) (k : String)
    (v : α) (h : (dictKeys m).Nodup) : (dictKeys (dictInsert m k v)).Nodup := by
  rw [dictKeys_dictInsert]
  by_cases hm : k ∈ dictKeys m
  · rw [if_pos hm]; exact h
  · rw [if_neg hm, List.nodup_append]
    refine ⟨h, List.nodup_singleton k, ?_⟩
    intro x hx hk2
    rw [List.mem_singleton] at hk2
    exact hm (hk2 ▸ hx)

/-- Replacing at a present key makes it read back the new value. -/
theorem pyGet_map_replace_self {α : Type} (m : List (String × α)) (k : String)
    (v : α) (hmem : k ∈ dictKeys m) :
    pyGet (m.map (fun kv => if kv.1 = k then (k, v) else kv)) k = some v := by
  induction m with
  | nil => simp [dictKeys] at hmem
  | cons kv rest ih =>
    by_cases hr : k ∈ dictKeys rest
    · have h2 := ih hr
      simp [pyGet, h2]
    · have hnone : pyGet (rest.map (fun kv => if kv.1 = k then (k, v) else kv)) k = none := by
        rw [pyGet_eq_none_iff, dictKeys_map_replace]
        exact hr
      have hk : kv.1 = k := by
        rcases List.mem_cons.mp (hmem : k ∈ kv.1 :: dictKeys rest) with h1 | h2
        · exact h1.symm
        · exact absurd h2 hr
      simp [pyGet, hnone, hk]

/-- Replacing at `k` does not disturb reads of other keys. -/
theorem pyGet_map_replace_ne {α : Type} (m : List (String × α)) (k k' : String)
    (v : α) (h : k' ≠ k) :
    pyGet (m.map (fun kv => if kv.1 = k then (k, v) else kv)) k' = pyGet m k' := by
  induction m with
  | nil => rfl
  | cons kv rest ih =>
    show (match pyGet (rest.map _) k' with
      | some w => some w
      | none => if (if kv.1 = k then (k, v) else kv).1 = k' then some (if kv.1 = k then (k, v) else kv).2 else none) = _
    rw [ih]
    cases hr : pyGet rest k' with
    | some w => simp [pyGet, hr]
    | none =>
      by_cases hk : kv.1 = k
      · simp [pyGet, hr, hk, Ne.symm h]
      · simp [pyGet, hr, hk]

/-- Reading back the key just assigned gives the new value. -/
theorem pyGet_dictInsert_self {α : Type} (m : List (String × α)) (k : String)
    (v : α) : pyGet (dictInsert m k v) k = some v := by
  unfold dictInsert
  by_cases hany : (m.any fun kv => kv.1 = k) = true
  · rw [if_pos hany]
    rcases List.any_eq_true.mp hany with ⟨kv, hkv, hfst⟩
    refine pyGet_map_replace_self m k v ((mem_dictKeys m k).mpr ⟨kv.2, ?_⟩)
    have : kv.1 = k := by simpa using hfst
    rwa [← this, Prod.mk.eta]
  · rw [if_neg hany]
    exact pyGet_append_of_some m [(k, v)] k v (by simp [pyGet])

/-- Dict assignment does not disturb other keys. -/
theorem pyGet_dictInsert_ne {α : Type} (m : List (String × α)) (k k' : String)
    (v : α) (h : k' ≠ k) : pyGet (dictInsert m k v) k' = pyGet m k' := by
  unfold dictInsert
  by_cases hany : (m.any fun kv => kv.1 = k) = true
  · rw [if_pos hany]
    exact pyGet_map_replace_ne m k k' v h
  · rw [if_neg hany]
    exact pyGet_append_of_none m [(k, v)] k' (by simp [pyGet, Ne.symm h])

/-- Invariant of the `fetch_parallel` accumulation loop, generalised over the
starting dict. -/
theorem fetch_parallel_loop {α : Type} (oracle : String → Option α) :
    ∀ (urls : List String) (m : List (String × Option α)),
      (dictKeys m).Nodup →
      (dictKeys (urls.foldl (fun results url => dictInsert results url (oracle url)) m)).Nodup ∧
      (∀ x, x ∈ dictKeys (urls.foldl (fun results url => dictInsert results url (oracle url)) m) ↔
        x ∈ dictKeys m ∨ x ∈ urls) ∧
      (∀ u, u ∈ urls →
        pyGet (urls.foldl (fun results url => dictInsert results url (oracle url)) m) u
          = some (oracle u)) ∧
      (∀ u, u ∉ urls →
        pyGet (urls.foldl (fun results url => dictInsert results url (oracle url)) m) u
          = pyGet m u) := by
  intro urls
  induction urls with
  | nil =>
    intro m hm
    refine ⟨hm, fun x => by simp, ?_, fun u _ => rfl⟩
    intro u hu
    simp at hu
  | cons u urls ih =>
    intro m hm
    have hm' := nodup_dictKeys_dictInsert m u (oracle u) hm
    obtain ⟨n1, n2, n3, n4⟩ := ih (dictInsert m u (oracle u)) hm'
    refine ⟨n1, ?_, ?_, ?_⟩
    · intro x
      rw [List.foldl_cons] at *
      rw [n2 x, dictKeys_dictInsert]
      by_cases hx : u ∈ dictKeys m
      · rw [if_pos hx]
        constructor
        · rintro (h1 | h2)
          · exact Or.inl h1
          · exact Or.inr (List.mem_cons_of_mem u h2)
        · rintro (h1 | h2)
          · exact Or.inl h1
          · rcases List.mem_cons.mp h2 with h3 | h4
            · exact Or.inl (h3 ▸ hx)
            · exact Or.inr h4
      · rw [if_neg hx]
        simp only [List.mem_append, List.mem_singleton, List.mem_cons]
        tauto
    · intro w hw
      rw [List.foldl_cons]
      rcases List.mem_cons.mp hw with h1 | h2
      · subst h1
        by_cases hu : w ∈ urls
        · exact n3 w hu
        · rw [n4 w hu, pyGet_dictInsert_self]
      · exact n3 w h2
    · intro w hw
      rw [List.foldl_cons]
      have hw1 : w ≠ u := fun he => hw (he ▸ List.mem_cons_self u urls)
      have hw2 : w ∉ urls := fun hc => hw (List.mem_cons_of_mem u hc)
      rw [n4 w hw2, pyGet_dictInsert_ne m u w (oracle u) hw1]

/-- C5 amended: the `fetch_parallel` map has exactly one entry per *distinct*
input URL — every input URL reads back (a failed fetch as the stored `None`,
independently of the other URLs), the key list is duplicate-free, and the keys
are exactly the input URLs; a duplicated input collapses to one entry, so the
entry count equals `len(urls)` only when the inputs are distinct. -/
theorem fetch_parallel_per_url {α : Type} (urls : List String)
    (oracle : String → Option α) :
    (∀ u ∈ urls, pyGet (fetch_parallel urls oracle) u = some (oracle u)) ∧
    (dictKeys (fetch_parallel urls oracle)).Nodup ∧
    (∀ u, u ∈ dictKeys (fetch_parallel urls oracle) ↔ u ∈ urls) := by
  unfold fetch_parallel
  obtain ⟨n1, n2, n3, -⟩ :=
    fetch_parallel_loop oracle urls [] (by simp [dictKeys])
  refine ⟨n3, n1, fun u => ?_⟩
  rw [n2 u]
  simp [dictKeys]

/-- C5 witness: in the batch `["a", "b"]` with `"b"` failing, the key `"b"`
is still present, mapped to the failure value. -/
theorem fetch_parallel_per_url_witness :
    pyGet (fetch_parallel ["a", "b"] exFetchOracle) "b" = some (exFetchOracle "b") :=
  (fetch_parallel_per_url ["a", "b"] exFetchOracle).1 "b" (by decide)

/-- The listing walk is a `takeWhile`: rows are retained, in order, up to (and
excluding) the first row whose parsed date is `<=` the cutoff. -/
theorem walkEventRows_eq_takeWhile (sd : Option Date) (rows : List EventRow) :
    walkEventRows sd rows
      = (rows.takeWhile (fun r => !shouldStop sd r)).map create_event := by
  induction rows with
  | nil => rfl
  | cons row rest ih =>
    have hstep : walkEventRows sd (row :: rest)
        = if shouldStop sd row then []
          else create_event row :: walkEventRows sd rest := rfl
    rw [List.takeWhile_cons, hstep]
    by_cases h : shouldStop sd row
    · rw [if_pos h, h]
      simp
    · rw [if_neg h, ih]
      simp [h]

/-- C6: with a cutoff date, `create_events` walks the rows after the future
marker and stops at the first row whose parsed date is `<=` the cutoff,
retaining none at or beyond it; in the three-row scenario dated
D3 > D2 > D1 with cutoff D2, exactly the D3 stub is produced. -/
theorem create_events_cutoff :
    (∀ (s : Date) (p : ListingPage), p.tableFound = true → p.tbodyFound = true →
      p.futureMarkerFound = true →
      create_events (some s) (some p)
        = (p.rowsAfterMarker.takeWhile (fun r => !shouldStop (some s) r)).map create_event) ∧
    create_events (some exCutoffD2) (some exListing) = [create_event exRowD3] ∧
    (create_event exRowD3).date = some ⟨2024, 8, 17⟩ := by
  refine ⟨?_, ?_, ?_⟩
  · intro s p h1 h2 h3
    have hstep : create_events (some s) (some p)
        = if (p.tableFound && p.tbodyFound && p.futureMarkerFound) = true then
            walkEventRows (some s) p.rowsAfterMarker
          else [] := rfl
    rw [hstep, h1, h2, h3]
    simp only [Bool.and_self, if_true]
    exact walkEventRows_eq_takeWhile (some s) p.rowsAfterMarker
  · rfl
  · rfl

/-- C6 witness: the cutoff lemma applied to the concrete three-row listing. -/
theorem create_events_cutoff_witness :
    create_events (some exCutoffD2) (some exListing)
      = (exListing.rowsAfterMarker.takeWhile
          (fun r => !shouldStop (some exCutoffD2) r)).map create_event :=
  create_events_cutoff.1 exCutoffD2 exListing rfl rfl rfl

/-- A successful `stats_by_link` lookup returns a row whose identity token is
the queried key. -/
theorem statsByLinkGet_link (rs0 rs1 rs : RoundStats) (k : Option String)
    (h : statsByLinkGet rs0 rs1 k = some rs) : rs.fighter_link = k := by
  unfold statsByLinkGet at h
  split_ifs at h with h1 h2
  · cases h
    exact h1
  · cases h
    exact h2

/-- Characterisation of the `stats_by_link` lookup (position 1 shadows
position 0 on a key collision, as in the dict comprehension). -/
theorem statsByLinkGet_eq_some_iff (rs0 rs1 rs : RoundStats) (k : Option String) :
    statsByLinkGet rs0 rs1 k = some rs ↔
      (rs1.fighter_link = k ∧ rs = rs1) ∨
      (rs1.fighter_link ≠ k ∧ rs0.fighter_link = k ∧ rs = rs0) := by
  unfold statsByLinkGet
  split_ifs with h1 h2
  · constructor
    · intro h
      cases h
      exact Or.inl ⟨h1, rfl⟩
    · rintro (⟨-, rfl⟩ | ⟨hc, -, -⟩)
      · rfl
      · exact absurd h1 hc
  · constructor
    · intro h
      cases h
      exact Or.inr ⟨h1, h2, rfl⟩
    · rintro (⟨hc, -⟩ | ⟨-, -, rfl⟩)
      · exact absurd hc h1
      · rfl
  · constructor
    · intro h
      cases h
    · rintro (⟨hc, -⟩ | ⟨-, hc, -⟩)
      · exact absurd hc h1
      · exact absurd hc h2

/-- C4: round construction for expected participant links `(urlA, urlB)`:
when the two extracted rows carry the identity tokens `{urlA, urlB}`,
construction succeeds and assigns each side the row whose token matches
(side A gets urlA's row, side B gets urlB's row); when the tokens are
non-bijective with respect to `{urlA, urlB}` (both rows carrying the same
link, or a row matching neither), construction raises the identity-mismatch
`ValueError`. -/
theorem create_round_identity_matching (n : Nat) (totals : Option TotalsRowSrc)
    (sigs : Option SigRowSrc) (linkA linkB : String) (hne : linkA ≠ linkB) :
    (((mkRoundStats false totals sigs).fighter_link = some linkA ∧
        (mkRoundStats true totals sigs).fighter_link = some linkB) ∨
      ((mkRoundStats false totals sigs).fighter_link = some linkB ∧
        (mkRoundStats true totals sigs).fighter_link = some linkA) →
      ∃ r, create_round n totals sigs (linkA, linkB) = .ok r ∧
        r.round_number = n ∧
        r.fighter_a_roundstats.fighter_link = some linkA ∧
        r.fighter_b_roundstats.fighter_link = some linkB ∧
        (r.fighter_a_roundstats = mkRoundStats false totals sigs ∨
          r.fighter_a_roundstats = mkRoundStats true totals sigs) ∧
        (r.fighter_b_roundstats = mkRoundStats false totals sigs ∨
          r.fighter_b_roundstats = mkRoundStats true totals sigs)) ∧
    (¬(((mkRoundStats false totals sigs).fighter_link = some linkA ∧
          (mkRoundStats true totals sigs).fighter_link = some linkB) ∨
        ((mkRoundStats false totals sigs).fighter_link = some linkB ∧
          (mkRoundStats true totals sigs).fighter_link = some linkA)) →
      ∃ e, create_round n totals sigs (linkA, linkB) = .error e) := by
  have hcr : create_round n totals sigs (linkA, linkB)
      = match statsByLinkGet (mkRoundStats false totals sigs)
                (mkRoundStats true totals sigs) (some linkA),
              statsByLinkGet (mkRoundStats false totals sigs)
                (mkRoundStats true totals sigs) (some linkB) with
        | some a, some b => .ok ⟨n, a, b⟩
        | _, _ => .error "Could not match Round stats to fighter links." := rfl
  constructor
  · rintro (⟨h0, h1⟩ | ⟨h0, h1⟩)
    · have gA : statsByLinkGet (mkRoundStats false totals sigs)
          (mkRoundStats true totals sigs) (some linkA)
          = some (mkRoundStats false totals sigs) := by
        unfold statsByLinkGet
        rw [if_neg, if_pos h0]
        rw [h1]
        intro hc
        exact hne (Option.some.inj hc).symm
      have gB : statsByLinkGet (mkRoundStats false totals sigs)
          (mkRoundStats true totals sigs) (some linkB)
          = some (mkRoundStats true totals sigs) := by
        unfold statsByLinkGet
        rw [if_pos h1]
      refine ⟨⟨n, mkRoundStats false totals sigs, mkRoundStats true totals sigs⟩,
        ?_, rfl, h0, h1, Or.inl rfl, Or.inr rfl⟩
      rw [hcr, gA, gB]
    · have gA : statsByLinkGet (mkRoundStats false totals sigs)
          (mkRoundStats true totals sigs) (some linkA)
          = some (mkRoundStats true totals sigs) := by
        unfold statsByLinkGet
        rw [if_pos h1]
      have gB : statsByLinkGet (mkRoundStats false totals sigs)
          (mkRoundStats true totals sigs) (some linkB)
          = some (mkRoundStats false totals sigs) := by
        unfold statsByLinkGet
        rw [if_neg, if_pos h0]
        rw [h1]
        intro hc
        exact hne (Option.some.inj hc)
      refine ⟨⟨n, mkRoundStats true totals sigs, mkRoundStats false totals sigs⟩,
        ?_, rfl, h1, h0, Or.inr rfl, Or.inl rfl⟩
      rw [hcr, gA, gB]
  · intro hnb
    cases hA : statsByLinkGet (mkRoundStats false totals sigs)
        (mkRoundStats true totals sigs) (some linkA) with
    | none =>
      refine ⟨"Could not match Round stats to fighter links.", ?_⟩
      rw [hcr, hA]
    | some a =>
      cases hB : statsByLinkGet (mkRoundStats false totals sigs)
          (mkRoundStats true totals sigs) (some linkB) with
      | none =>
        refine ⟨"Could not match Round stats to fighter links.", ?_⟩
        rw [hcr, hA, hB]
      | some b =>
        exfalso
        rcases (statsByLinkGet_eq_some_iff _ _ _ _).mp hA with ⟨hA1, -⟩ | ⟨-, hA0, -⟩ <;>
          rcases (statsByLinkGet_eq_some_iff _ _ _ _).mp hB with ⟨hB1, -⟩ | ⟨-, hB0, -⟩
        · rw [hA1] at hB1
          exact hne (Option.some.inj hB1)
        · exact hnb (Or.inr ⟨hB0, hA1⟩)
        · exact hnb (Or.inl ⟨hA0, hB1⟩)
        · rw [hA0] at hB0
          exact hne (Option.some.inj hB0)

/-- C4 witness: a totals row with tokens `{A, B}` for expected links
`(A, B)` constructs successfully with correct side assignment. -/
theorem create_round_identity_matching_witness :
    ∃ r, create_round 1 (some exTotalsRowAB) none ("A", "B") = .ok r ∧
      r.round_number = 1 ∧
      r.fighter_a_roundstats.fighter_link = some "A" ∧
      r.fighter_b_roundstats.fighter_link = some "B" ∧
      (r.fighter_a_roundstats = mkRoundStats false (some exTotalsRowAB) none ∨
        r.fighter_a_roundstats = mkRoundStats true (some exTotalsRowAB) none) ∧
      (r.fighter_b_roundstats = mkRoundStats false (some exTotalsRowAB) none ∨
        r.fighter_b_roundstats = mkRoundStats true (some exTotalsRowAB) none) :=
  (create_round_identity_matching 1 (some exTotalsRowAB) none "A" "B"
    (by decide)).1 (Or.inl ⟨by decide, by decide⟩)

/-- A fight construction that completes (no exception) has resolved both
participant references. -/
theorem create_fight_ok_resolved (fo : String → Option FighterPage)
    (go : String → Option FightPage) (cache : List (String × Fighter))
    (link : String) (page : FightPage) (f : Fight)
    (cache' : List (String × Fighter))
    (h : create_fight fo go cache link (some page) = .ok (f, cache')) :
    f.fighter_a.isSome = true ∧ f.fighter_b.isSome = true := by
  have hstep : create_fight fo go cache link (some page)
      = match parse_fighters fo cache page with
        | .error e => .error e
        | .ok ((fa, fb), cache1) =>
          match create_rounds (parse_round_of_victory (pyGet page.details "ROUND"))
              page (fa.link, fb.link) with
          | .error e => .error e
          | .ok rounds =>
            .ok ({ link := link
                   gender := (parse_weight_class_fields page.fightTitleTxt).2.1
                   title_fight := (parse_weight_class_fields page.fightTitleTxt).2.2
                   fighter_a := some fa
                   fighter_b := some fb
                   winner := parse_winner page.personStatus
                   weight_class := (parse_weight_class_fields page.fightTitleTxt).1
                   method_of_victory := pyGet page.details "METHOD"
                   round_of_victory := parse_round_of_victory (pyGet page.details "ROUND")
                   time_of_victory_sec := parse_mm_ss (pyGet page.details "TIME")
                   time_format := parse_time_format (pyGet page.details "TIME FORMAT")
                   referee := pyGet page.details "REFEREE"
                   rounds := rounds }, cache1) := rfl
  rw [hstep] at h
  cases hpf : parse_fighters fo cache page with
  | error e =>
    simp only [hpf] at h
    exact Except.noConfusion h
  | ok pr =>
    obtain ⟨⟨fa, fb⟩, cache1⟩ := pr
    simp only [hpf] at h
    cases hr : create_rounds (parse_round_of_victory (pyGet page.details "ROUND"))
        page (fa.link, fb.link) with
    | error e =>
      simp only [hr] at h
      exact Except.noConfusion h
    | ok rounds =>
      simp only [hr, Except.ok.injEq, Prod.mk.injEq] at h
      obtain ⟨h1, -⟩ := h
      subst h1
      exact ⟨rfl, rfl⟩

/-- C3: every fight appended to an event's fight list has both participant
references resolved; a fight whose construction failed (fetch failure, wrong
anchor count, round identity mismatch, ...) is abandoned and never appended. -/
theorem event_fights_resolved (fo : String → Option FighterPage)
    (go : String → Option FightPage) (links : List String)
    (cache : List (String × Fighter)) :
    ∀ f ∈ (create_fights fo go links cache).1,
      f.fighter_a.isSome = true ∧ f.fighter_b.isSome = true := by
  unfold create_fights
  generalize fetch_parallel links go = soups
  induction links generalizing cache with
  | nil =>
    intro f hf
    simp [createFightsGo] at hf
  | cons link rest ih =>
    intro f hf
    have hstep : createFightsGo fo go soups (link :: rest) cache
        = match (pyGet soups link).getD none with
          | none => createFightsGo fo go soups rest cache
          | some s =>
            match create_fight fo go cache link (some s) with
            | .error _ => createFightsGo fo go soups rest cache
            | .ok (f0, cache1) =>
              (f0 :: (createFightsGo fo go soups rest cache1).1,
                (createFightsGo fo go soups rest cache1).2) := rfl
    rw [hstep] at hf
    cases hs : (pyGet soups link).getD none with
    | none =>
      simp only [hs] at hf
      exact ih cache f hf
    | some s =>
      simp only [hs] at hf
      cases hc : create_fight fo go cache link (some s) with
      | error e =>
        simp only [hc] at hf
        exact ih cache f hf
      | ok pr =>
        obtain ⟨f0, cache1⟩ := pr
        simp only [hc] at hf
        rcases List.mem_cons.mp hf with rfl | hmem
        · exact create_fight_ok_resolved fo go cache link s f cache1 hc
        · exact ih cache1 f hmem

/-- C3 witness: the concrete one-fight pipeline produces a fight, and the
theorem applies to it. -/
theorem event_fights_resolved_witness :
    ((create_fights exFighterOracle exFightOracle ["fight1"] []).1.getD 0
        { link := "none" }).fighter_a.isSome = true ∧
    ((create_fights exFighterOracle exFightOracle ["fight1"] []).1.getD 0
        { link := "none" }).fighter_b.isSome = true :=
  event_fights_resolved exFighterOracle exFightOracle ["fight1"] []
    ((create_fights exFighterOracle exFightOracle ["fight1"] []).1.getD 0
      { link := "none" })
    (by decide)

/-! ### Lemmas about the digit / whitespace scanners -/

/-- `takeWhile`/`dropWhile` on a block that wholly satisfies `p` followed by a
suffix whose head does not: the block is taken, the suffix remains. -/
theorem takeWhile_all_append (p : Char → Bool) (l r : List Char)
    (hl : ∀ c ∈ l, p c = true) (hr : ∀ c, r.head? = some c → p c = false) :
    (l ++ r).takeWhile p = l ∧ (l ++ r).dropWhile p = r := by
  induction l with
  | nil =>
    cases r with
    | nil => exact ⟨rfl, rfl⟩
    | cons c cs =>
      have hc : p c = false := hr c rfl
      rw [List.nil_append, List.takeWhile_cons, List.dropWhile_cons, hc]
      exact ⟨rfl, rfl⟩
  | cons a l ih =>
    have ha : p a = true := hl a (List.mem_cons_self a l)
    obtain ⟨ih1, ih2⟩ := ih (fun c hc => hl c (List.mem_cons_of_mem a hc))
    rw [List.cons_append, List.takeWhile_cons, List.dropWhile_cons, ha]
    simp only [if_true]
    exact ⟨by rw [ih1], by rw [ih2]⟩

/-- The digit scanner on a nonempty digit block followed by a non-digit
suffix. -/
theorem takeDigits_exact (ds rest : List Char) (h1 : ds ≠ [])
    (h2 : ∀ c ∈ ds, c.isDigit = true)
    (h3 : ∀ c, rest.head? = some c → c.isDigit = false) :
    takeDigits (ds ++ rest) = some (digitsToNat ds, rest) := by
  obtain ⟨ht, hd⟩ := takeWhile_all_append Char.isDigit ds rest h2 h3
  unfold takeDigits
  rw [ht, hd]
  cases ds with
  | nil => exact absurd rfl h1
  | cons a l => rfl

/-- The whitespace skipper on a whitespace block followed by a non-whitespace
suffix. -/
theorem skipWs_all_append (ws r : List Char) (h1 : ∀ c ∈ ws, pyWhitespace c = true)
    (h2 : ∀ c, r.head? = some c → pyWhitespace c = false) :
    skipWs (ws ++ r) = r := by
  unfold skipWs
  exact (takeWhile_all_append pyWhitespace ws r h1 h2).2

/-- Decimal digits are not Python whitespace. -/
theorem isDigit_not_pyWhitespace (c : Char) (h : c.isDigit = true) :
    pyWhitespace c = false := by
  cases hw : pyWhitespace c
  · rfl
  · unfold pyWhitespace at hw
    simp only [Bool.or_eq_true, decide_eq_true_eq] at hw
    rcases hw with ((((rfl | rfl) | rfl) | rfl) | rfl) | rfl <;> exact absurd h (by decide)

/-- Decomposition of a successful digit scan. -/
theorem takeDigits_eq_some (cs : List Char) (x : Nat) (rem : List Char)
    (h : takeDigits cs = some (x, rem)) :
    cs.takeWhile Char.isDigit ≠ [] ∧
    x = digitsToNat (cs.takeWhile Char.isDigit) ∧
    rem = cs.dropWhile Char.isDigit := by
  simp only [takeDigits] at h
  by_cases he : (cs.takeWhile Char.isDigit).isEmpty = true
  · rw [if_pos he] at h
    cases h
  · rw [if_neg he] at h
    injection h with h'
    refine ⟨fun hc => he (by simp [hc]), ?_, ?_⟩
    · exact (congrArg Prod.fst h').symm
    · exact (congrArg Prod.snd h').symm

/-- C9 amended: `parse_height` is a prefix match — it returns
`feet * 12 + inches` for every string that *begins with*
`<digits> ' <whitespace-run> <digits>`, where the whitespace run may be empty
or arbitrarily long (`[\s]*`) — so for every string of the valid form
`<feet>' <inches>"`, and equally for strings with no space or with trailing
text — and returns unknown for `None`, the empty string, and exactly those
strings that do not begin with that pattern. -/
theorem parse_height_prefix_semantics :
    (∀ (s : String) (fs ws is rest : List Char),
      s.data = fs ++ apoChar :: (ws ++ (is ++ rest)) →
      fs ≠ [] → (∀ c ∈ fs, c.isDigit = true) →
      (∀ c ∈ ws, pyWhitespace c = true) →
      is ≠ [] → (∀ c ∈ is, c.isDigit = true) →
      (∀ c, rest.head? = some c → c.isDigit = false) →
      parse_height (some s) = some (digitsToNat fs * 12 + digitsToNat is)) ∧
    parse_height none = none ∧
    parse_height (some "") = none ∧
    (∀ (s : String) (v : Nat), parse_height (some s) = some v →
      ∃ fs ws is rest, s.data = fs ++ apoChar :: (ws ++ (is ++ rest)) ∧
        fs ≠ [] ∧ (∀ c ∈ fs, c.isDigit = true) ∧
        (∀ c ∈ ws, pyWhitespace c = true) ∧
        is ≠ [] ∧ (∀ c ∈ is, c.isDigit = true) ∧
        v = digitsToNat fs * 12 + digitsToNat is) := by
  refine ⟨?_, rfl, rfl, ?_⟩
  · intro s fs ws is rest hs h1 h2 hws h3 h4 h5
    have hne : s.data.isEmpty = false := by
      rw [hs]
      cases fs with
      | nil => exact absurd rfl h1
      | cons a l => rfl
    have h10 : takeDigits s.data
        = some (digitsToNat fs, apoChar :: (ws ++ (is ++ rest))) := by
      rw [hs]
      refine takeDigits_exact fs _ h1 h2 ?_
      intro c hc
      cases hc
      decide
    have h11 : skipWs (ws ++ (is ++ rest)) = is ++ rest := by
      have hh : ∀ c, (is ++ rest).head? = some c → pyWhitespace c = false := by
        cases is with
        | nil => exact absurd rfl h3
        | cons a l =>
          intro c hc
          cases hc
          exact isDigit_not_pyWhitespace a (h4 a (List.mem_cons_self a l))
      exact skipWs_all_append ws (is ++ rest) hws hh
    have h12 : takeDigits (is ++ rest) = some (digitsToNat is, rest) :=
      takeDigits_exact is rest h3 h4 h5
    simp [parse_height, hne, h10, h11, h12]
  · intro s v h
    by_cases hne : s.data.isEmpty = true
    · simp [parse_height, hne] at h
    · cases htd : takeDigits s.data with
      | none => simp [parse_height, hne, htd] at h
      | some p =>
        obtain ⟨x, rem⟩ := p
        cases rem with
        | nil => simp [parse_height, hne, htd] at h
        | cons c rem2 =>
          by_cases hc : c = apoChar
          · subst hc
            cases hts : takeDigits (skipWs rem2) with
            | none => simp [parse_height, hne, htd, hts] at h
            | some q =>
              obtain ⟨y, rem3⟩ := q
              have hcomp : parse_height (some s) = some (x * 12 + y) := by
                simp [parse_height, hne, htd, hts]
              rw [hcomp] at h
              have hxy : x * 12 + y = v := Option.some.inj h
              obtain ⟨hfs_ne, hx, hrem⟩ :=
                takeDigits_eq_some s.data x (apoChar :: rem2) htd
              obtain ⟨his_ne, hy, hrem3⟩ :=
                takeDigits_eq_some (skipWs rem2) y rem3 hts
              have hrem2 : rem2
                  = rem2.takeWhile pyWhitespace
                    ++ ((skipWs rem2).takeWhile Char.isDigit ++ rem3) := by
                have a2 : (skipWs rem2).takeWhile Char.isDigit
                    ++ (skipWs rem2).dropWhile Char.isDigit = skipWs rem2 :=
                  List.takeWhile_append_dropWhile _ _
                rw [← hrem3] at a2
                calc rem2
                    = rem2.takeWhile pyWhitespace ++ rem2.dropWhile pyWhitespace :=
                      (List.takeWhile_append_dropWhile _ _).symm
                  _ = rem2.takeWhile pyWhitespace ++ skipWs rem2 := rfl
                  _ = rem2.takeWhile pyWhitespace
                      ++ ((skipWs rem2).takeWhile Char.isDigit ++ rem3) := by
                      rw [a2]
              have hfinal : s.data
                  = s.data.takeWhile Char.isDigit
                    ++ apoChar :: (rem2.takeWhile pyWhitespace
                      ++ ((skipWs rem2).takeWhile Char.isDigit ++ rem3)) := by
                calc s.data
                    = s.data.takeWhile Char.isDigit ++ s.data.dropWhile Char.isDigit :=
                      (List.takeWhile_append_dropWhile _ _).symm
                  _ = s.data.takeWhile Char.isDigit ++ (apoChar :: rem2) := by
                      rw [← hrem]
                  _ = _ :=
                      congrArg (fun l => s.data.takeWhile Char.isDigit ++ l)
                        (congrArg (fun l => apoChar :: l) hrem2)
              refine ⟨s.data.takeWhile Char.isDigit, rem2.takeWhile pyWhitespace,
                (skipWs rem2).takeWhile Char.isDigit, rem3, hfinal, hfs_ne,
                fun c hc2 => List.mem_takeWhile_imp hc2,
                fun c hc2 => List.mem_takeWhile_imp hc2, his_ne,
                fun c hc2 => List.mem_takeWhile_imp hc2, ?_⟩
              rw [← hxy, hx, hy]
          · simp [parse_height, hne, htd, hc] at h

/-- C9 witness: the prefix lemma applied to the canonical string 6' 1" and to
the zero-whitespace form 6'1. -/
theorem parse_height_prefix_semantics_witness :
    parse_height (some ("6" ++ apoStr ++ " 1\"")) = some 73 ∧
    parse_height (some ("6" ++ apoStr ++ "1")) = some 73 :=
  ⟨(parse_height_prefix_semantics.1 ("6" ++ apoStr ++ " 1\"")
      ['6'] [' '] ['1'] ['"'] (by decide) (by decide) (by decide) (by decide)
      (by decide) (by decide) (by intro c hc; cases hc; decide)).trans (by decide),
   (parse_height_prefix_semantics.1 ("6" ++ apoStr ++ "1")
      ['6'] [] ['1'] [] (by decide) (by decide) (by decide) (by decide)
      (by decide) (by decide) (by intro c hc; cases hc)).trans (by decide)⟩

end UFCScraper
